import Mathlib

/-!
Verification of the Truefact agent service (`src/main.py`,
`src/agent/models.py`) against its specification.

The service keeps an in-memory job store (`jobs`) and a map of active
payment instances (`payment_instances`).  Three operations touch the
store: the `start_job` endpoint, the `get_status` endpoint and the
payment-completion callback `handle_payment_status`.  External
collaborators (the Masumi payment SDK and the task-executor webhook)
are modelled by explicit outcome parameters (`Except` values): each
theorem quantifies over every possible outcome of the external call.
-/

/-- Association-list lookup for string-keyed string maps, modelling a
Python `dict[str, str]` subscript/`get`. -/
def lookupStr (key : String) : List (String × String) → Option String
  | [] => none
  | (k, v) :: rest => if k = key then some v else lookupStr key rest

/-- A stored job record, as created at `src/main.py` lines 156-163 and
mutated by `handle_payment_status` (lines 67-102) and `get_status`
(lines 204-232).  The Python dict has no `error` key until a failure
writes one; both `result` and `error` are modelled as `Option` values
that start out `none`. -/
structure JobRecord where
  status : String
  payment_status : String
  payment_id : String
  input_data : List (String × String)
  result : Option String
  error : Option String
  identifier_from_purchaser : String
deriving Repr, DecidableEq

/-- The two module-level mutable maps of `src/main.py`: `jobs`
(line 63) and `payment_instances` (line 64).  A payment instance is an
SDK object; for the store claims only its presence matters, so
`payment_instances` is modelled as the list of job ids that currently
hold one. -/
structure ServerState where
  jobs : List (String × JobRecord)
  payment_instances : List String
deriving Repr, DecidableEq

/-- The empty store the process starts with. -/
def initialState : ServerState := { jobs := [], payment_instances := [] }

/-- Association-list lookup into the job store (`jobs[job_id]` /
`job_id in jobs`). -/
def findJob (jid : String) : List (String × JobRecord) → Option JobRecord
  | [] => none
  | (k, j) :: rest => if k = jid then some j else findJob jid rest

/-- In-place mutation of one job record (`jobs[job_id][field] = v`). -/
def updateJob (jid : String) (f : JobRecord → JobRecord) :
    List (String × JobRecord) → List (String × JobRecord)
  | [] => []
  | (k, j) :: rest =>
      if k = jid then (k, f j) :: updateJob jid f rest
      else (k, j) :: updateJob jid f rest

/-- The request body of `POST /start_job` after validation
(`StartJobRequest`, `src/agent/models.py` lines 4-9). -/
structure StartJobRequest where
  identifier_from_purchaser : String
  input_data : List (String × String)
deriving Repr, DecidableEq

/-- The fields the code reads out of `create_payment_request()`'s
response under `"data"` (`src/main.py` lines 151 and 181-184).  Each is
an `Option`, modelling presence of the dictionary key; a missing key is
a `KeyError` at the corresponding read site. -/
structure PaymentData where
  blockchainIdentifier : Option String
  submitResultTime : Option Int
  unlockTime : Option Int
  externalDisputeUnlockTime : Option Int
deriving Repr, DecidableEq

/-- The 200 response body of `POST /start_job`
(`StartJobResponse`, `src/agent/models.py` lines 67-81). -/
structure StartJobResponse where
  status : String
  job_id : String
  blockchainIdentifier : String
  submitResultTime : Int
  unlockTime : Int
  externalDisputeUnlockTime : Int
  agentIdentifier : String
  sellerVkey : String
  identifierFromPurchaser : String
  amounts : List (Int × String)
  input_hash : String
deriving Repr, DecidableEq

/-- Outcome of a `start_job` call: a 200 body, or an `HTTPException`
with status code and detail string. -/
inductive StartResult where
  | ok (r : StartJobResponse)
  | httpError (code : Nat) (detail : String)
deriving Repr, DecidableEq

/-- The environment-derived constants `start_job` copies into its
response (payment amount and unit, agent identifier, seller vkey) and
the SDK-computed `payment.input_hash`.  None of them affect the job
store. -/
structure Env where
  payment_amount : Int
  payment_unit : String
  agent_identifier : String
  seller_vkey : String
  input_hash : String
deriving Repr, DecidableEq

/-- The `POST /start_job` handler (`src/main.py` lines 118-202).  `jid` is the
fresh `uuid.uuid4()` string; `creation` is the outcome of
`payment.create_payment_request()` (line 150).  Faithful ordering: the
`blockchainIdentifier` read (line 151) precedes the store insertion
(line 156), while the `submitResultTime` / `unlockTime` /
`externalDisputeUnlockTime` reads (lines 182-184) happen after it, so a
`KeyError` there yields a 400 with the job already stored.  A
`KeyError` maps to the 400 of line 193, any other exception to the 400
of line 199. -/
def start_job (s : ServerState) (jid : String) (req : StartJobRequest)
    (creation : Except String PaymentData) (env : Env) :
    ServerState × StartResult :=
  match creation with
  | .error e => (s, .httpError 400 ("Error: " ++ e))
  | .ok pd =>
    match pd.blockchainIdentifier with
    | none => (s, .httpError 400 "Missing required field in request schema")
    | some pid =>
      let newJob : JobRecord :=
        { status := "awaiting_payment", payment_status := "pending",
          payment_id := pid, input_data := req.input_data,
          result := none, error := none,
          identifier_from_purchaser := req.identifier_from_purchaser }
      let s1 : ServerState :=
        { jobs := (jid, newJob) :: s.jobs,
          payment_instances := jid :: s.payment_instances }
      let response : StartResult :=
        match pd.submitResultTime, pd.unlockTime, pd.externalDisputeUnlockTime with
        | some t1, some t2, some t3 =>
            .ok { status := "success", job_id := jid, blockchainIdentifier := pid,
                  submitResultTime := t1, unlockTime := t2,
                  externalDisputeUnlockTime := t3,
                  agentIdentifier := env.agent_identifier,
                  sellerVkey := env.seller_vkey,
                  identifierFromPurchaser := req.identifier_from_purchaser,
                  amounts := [(env.payment_amount, env.payment_unit)],
                  input_hash := env.input_hash }
        | _, _, _ => .httpError 400 "Missing required field in request schema"
      (s1, response)

/-- The `except` block of `handle_payment_status` (`src/main.py`
lines 94-97): overwrite `status` with "failed" and `error` with
`str(e)`; `result` and `payment_status` keep their current values. -/
def failUpd (msg : String) (j0 : JobRecord) : JobRecord :=
  { j0 with status := "failed", error := some msg }

/-- The success writes of `handle_payment_status` (`src/main.py`
lines 86-88). -/
def completeUpd (res : String) (j0 : JobRecord) : JobRecord :=
  { j0 with status := "completed", payment_status := "completed",
            result := some res }

/-- End state of a callback invocation that hit the `except` block:
the job is marked failed and the payment instance, if any, is deleted
(`src/main.py` lines 96-102). -/
def failedState (s : ServerState) (jid msg : String) : ServerState :=
  { jobs := updateJob jid (failUpd msg) s.jobs,
    payment_instances := s.payment_instances.filter (fun k => k != jid) }

/-- End state of a successful callback invocation: the job is marked
completed and the payment instance deleted (`src/main.py`
lines 86-93). -/
def completedState (s : ServerState) (jid res : String) : ServerState :=
  { jobs := updateJob jid (completeUpd res) s.jobs,
    payment_instances := s.payment_instances.filter (fun k => k != jid) }

/-- The payment-completion callback `handle_payment_status`
(`src/main.py` lines 67-102).  `taskOutcome` is the outcome of
`execute_ai_task` (the webhook call, line 77); `completeOutcome` the
outcome of `complete_payment` (line 82) when a payment instance
exists.  Faithful control flow: line 73 sets the status to running;
the `jobs[job_id]["input_data"]["text"]` read raises `KeyError` when
the key is missing; `payment_instances[job_id]` raises `KeyError` when
the instance was already deleted; the `except` block (lines 94-102)
writes `status = "failed"` and `error = str(e)` (leaving `result` and
`payment_status` as they were) and deletes the instance if present.
The success path overwrites status with "completed", so the final
state of one whole invocation is returned. -/
def handle_payment_status (s : ServerState) (jid : String)
    (taskOutcome : Except String String)
    (completeOutcome : Except String Unit) : ServerState :=
  match findJob jid s.jobs with
  | none => s
  | some j =>
      match lookupStr "text" j.input_data with
      | none => failedState s jid "KeyError: text"
      | some _ =>
        match taskOutcome with
        | .error m => failedState s jid m
        | .ok res =>
          if jid ∈ s.payment_instances then
            match completeOutcome with
            | .error m => failedState s jid m
            | .ok _ => completedState s jid res
          else failedState s jid ("KeyError: " ++ jid)

/-- The 200 response body of `GET /status` (`JobStatus`,
`src/agent/models.py` lines 22-29). -/
structure JobStatusBody where
  job_id : String
  status : String
  payment_status : String
  result : Option String
deriving Repr, DecidableEq

/-- Outcome of a `get_status` call: a 200 body or the 404
`HTTPException`. -/
inductive StatusResult where
  | ok (body : JobStatusBody)
  | notFound (detail : String)
deriving Repr, DecidableEq

/-- HTTP status code of a `get_status` outcome. -/
def statusHttpCode : StatusResult → Nat
  | .ok _ => 200
  | .notFound _ => 404

/-- The `GET /status` handler (`src/main.py` lines 204-232).  `refresh` is the
outcome of `check_payment_status()` (line 218), queried only when a
payment instance exists: `.ok st` carries
`response.get("data", {}).get("status", ...)` as an `Option` (line 219,
defaulting to "unknown"), and `.error` models a raised exception
(line 221), degrading `payment_status` to "error". -/
def get_status (s : ServerState) (jid : String)
    (refresh : Except String (Option String)) : ServerState × StatusResult :=
  match findJob jid s.jobs with
  | none => (s, .notFound "Job not found")
  | some j =>
      if jid ∈ s.payment_instances then
        let ps : String :=
          match refresh with
          | .ok st => st.getD "unknown"
          | .error _ => "error"
        let s1 : ServerState :=
          { s with jobs := updateJob jid
                     (fun j0 => { j0 with payment_status := ps }) s.jobs }
        (s1, .ok { job_id := jid, status := j.status, payment_status := ps,
                   result := j.result })
      else
        (s, .ok { job_id := jid, status := j.status,
                  payment_status := j.payment_status, result := j.result })

/-- One client-visible operation on the store, with the outcomes of
the external calls it makes carried as data. -/
inductive Op where
  | startJob (jid : String) (req : StartJobRequest)
      (creation : Except String PaymentData)
  | getStatus (jid : String) (refresh : Except String (Option String))
  | paymentCallback (jid : String) (taskOutcome : Except String String)
      (completeOutcome : Except String Unit)
deriving Repr

/-- Environment values used when an operation runs inside a trace; the
job-store effect of `start_job` does not depend on them. -/
def defaultEnv : Env :=
  { payment_amount := 10000000, payment_unit := "lovelace",
    agent_identifier := "demo-agent", seller_vkey := "", input_hash := "" }

/-- The store effect of one operation. -/
def applyOp (s : ServerState) : Op → ServerState
  | .startJob jid req creation => (start_job s jid req creation defaultEnv).1
  | .getStatus jid refresh => (get_status s jid refresh).1
  | .paymentCallback jid t c => handle_payment_status s jid t c

/-- The operations the running service actually performs: `start_job`
uses a fresh `uuid.uuid4()` id, and the completion callback is invoked
by the monitoring task, which exists exactly while the job has a
payment instance — so at most once per job (monitoring is stopped and
the instance deleted when the callback finishes). -/
def allowedOp (s : ServerState) : Op → Bool
  | .startJob jid _ _ => decide (findJob jid s.jobs = none)
  | .getStatus _ _ => true
  | .paymentCallback jid _ _ => decide (jid ∈ s.payment_instances)

/-- States reachable from the empty store by allowed operations. -/
inductive Reachable : ServerState → Prop where
  | init : Reachable initialState
  | step {s : ServerState} (op : Op) : Reachable s → allowedOp s op = true →
      Reachable (applyOp s op)

/-- Per-job store invariant: a job with a live payment instance is
still awaiting payment with no result or error; a job without one is
terminal, holding a result exactly when completed and an error exactly
when failed. -/
def JobInv (s : ServerState) (jid : String) (j : JobRecord) : Prop :=
  (jid ∈ s.payment_instances →
     j.status = "awaiting_payment" ∧ j.result = none ∧ j.error = none) ∧
  (jid ∉ s.payment_instances →
     (j.status = "completed" ∨ j.status = "failed") ∧
     (j.status = "completed" ↔ j.result ≠ none) ∧
     (j.status = "failed" ↔ j.error ≠ none))

/-- Store invariant: every payment instance belongs to a stored job,
and every stored job satisfies `JobInv`. -/
def StoreInv (s : ServerState) : Prop :=
  (∀ jid, jid ∈ s.payment_instances → (findJob jid s.jobs).isSome) ∧
  (∀ jid j, findJob jid s.jobs = some j → JobInv s jid j)

theorem findJob_updateJob_self (jid : String) (f : JobRecord → JobRecord)
    (l : List (String × JobRecord)) :
    findJob jid (updateJob jid f l) = (findJob jid l).map f := by
  induction l with
  | nil => rfl
  | cons kv rest ih =>
      obtain ⟨k, j⟩ := kv
      by_cases hk : k = jid
      · simp [findJob, updateJob, hk]
      · simp [findJob, updateJob, hk, ih]

theorem findJob_updateJob_ne (jid k : String) (hk : k ≠ jid)
    (f : JobRecord → JobRecord) (l : List (String × JobRecord)) :
    findJob k (updateJob jid f l) = findJob k l := by
  induction l with
  | nil => rfl
  | cons kv rest ih =>
      obtain ⟨k0, j⟩ := kv
      by_cases h0 : k0 = jid
      · subst h0
        simp [findJob, updateJob, Ne.symm hk, ih]
      · by_cases h1 : k0 = k
        · subst h1
          simp [findJob, updateJob, h0, ih]
        · simp [findJob, updateJob, h0, h1, ih]

theorem mem_filter_ne {k jid : String} {l : List String} :
    k ∈ l.filter (fun x => x != jid) ↔ k ∈ l ∧ k ≠ jid := by
  simp [List.mem_filter]

theorem findJob_failedState_self (s : ServerState) (jid msg : String) :
    findJob jid (failedState s jid msg).jobs = (findJob jid s.jobs).map (failUpd msg) := by
  simp [failedState, findJob_updateJob_self]

theorem findJob_completedState_self (s : ServerState) (jid res : String) :
    findJob jid (completedState s jid res).jobs =
      (findJob jid s.jobs).map (completeUpd res) := by
  simp [completedState, findJob_updateJob_self]

theorem mem_failedState_instances {k : String} {s : ServerState} {jid msg : String} :
    k ∈ (failedState s jid msg).payment_instances ↔ k ∈ s.payment_instances ∧ k ≠ jid :=
  mem_filter_ne

theorem mem_completedState_instances {k : String} {s : ServerState} {jid res : String} :
    k ∈ (completedState s jid res).payment_instances ↔ k ∈ s.payment_instances ∧ k ≠ jid :=
  mem_filter_ne

theorem storeInv_failedState (s : ServerState) (jid : String) (msg : String)
    (j : JobRecord) (hInv : StoreInv s) (hj : findJob jid s.jobs = some j)
    (hres : j.result = none) :
    StoreInv (failedState s jid msg) := by
  obtain ⟨hdom, hjobs⟩ := hInv
  constructor
  · intro k hk
    obtain ⟨hk1, hk2⟩ := mem_failedState_instances.mp hk
    simp only [failedState]
    rw [findJob_updateJob_ne jid k hk2]
    exact hdom k hk1
  · intro k j' hj'
    by_cases hkj : k = jid
    · subst hkj
      rw [findJob_failedState_self, hj] at hj'
      simp only [Option.map_some'] at hj'
      obtain rfl : j' = failUpd msg j := (Option.some.inj hj').symm
      constructor
      · intro hmem
        exact absurd rfl (mem_failedState_instances.mp hmem).2
      · intro _
        refine ⟨Or.inr rfl, ?_, ?_⟩
        · exact ⟨fun h => absurd h (show ¬("failed" = "completed") by decide),
                 fun h => absurd hres h⟩
        · exact ⟨fun _ => Option.some_ne_none msg, fun _ => rfl⟩
    · rw [show (failedState s jid msg).jobs = updateJob jid (failUpd msg) s.jobs from rfl,
          findJob_updateJob_ne jid k hkj] at hj'
      have hJI := hjobs k j' hj'
      constructor
      · intro hmem
        exact hJI.1 (mem_failedState_instances.mp hmem).1
      · intro hmem
        exact hJI.2 (fun hk1 => hmem (mem_failedState_instances.mpr ⟨hk1, hkj⟩))

theorem storeInv_completedState (s : ServerState) (jid : String) (res : String)
    (j : JobRecord) (hInv : StoreInv s) (hj : findJob jid s.jobs = some j)
    (herr : j.error = none) :
    StoreInv (completedState s jid res) := by
  obtain ⟨hdom, hjobs⟩ := hInv
  constructor
  · intro k hk
    obtain ⟨hk1, hk2⟩ := mem_completedState_instances.mp hk
    simp only [completedState]
    rw [findJob_updateJob_ne jid k hk2]
    exact hdom k hk1
  · intro k j' hj'
    by_cases hkj : k = jid
    · subst hkj
      rw [findJob_completedState_self, hj] at hj'
      simp only [Option.map_some'] at hj'
      obtain rfl : j' = completeUpd res j := (Option.some.inj hj').symm
      constructor
      · intro hmem
        exact absurd rfl (mem_completedState_instances.mp hmem).2
      · intro _
        refine ⟨Or.inl rfl, ?_, ?_⟩
        · exact ⟨fun _ => Option.some_ne_none res, fun _ => rfl⟩
        · exact ⟨fun h => absurd h (show ¬("completed" = "failed") by decide),
                 fun h => absurd herr h⟩
    · rw [show (completedState s jid res).jobs = updateJob jid (completeUpd res) s.jobs from rfl,
          findJob_updateJob_ne jid k hkj] at hj'
      have hJI := hjobs k j' hj'
      constructor
      · intro hmem
        exact hJI.1 (mem_completedState_instances.mp hmem).1
      · intro hmem
        exact hJI.2 (fun hk1 => hmem (mem_completedState_instances.mpr ⟨hk1, hkj⟩))

theorem storeInv_callback (s : ServerState) (jid : String)
    (t : Except String String) (c : Except String Unit)
    (hInv : StoreInv s) (hmem : jid ∈ s.payment_instances) :
    StoreInv (handle_payment_status s jid t c) := by
  have hsome := hInv.1 jid hmem
  rcases hj : findJob jid s.jobs with _ | j
  · rw [hj] at hsome
    simp at hsome
  · have hJI := (hInv.2 jid j hj).1 hmem
    rcases hlt : lookupStr "text" j.input_data with _ | txt
    · simp only [handle_payment_status, hj, hlt]
      exact storeInv_failedState s jid _ j hInv hj hJI.2.1
    · rcases t with m | res
      · simp only [handle_payment_status, hj, hlt]
        exact storeInv_failedState s jid _ j hInv hj hJI.2.1
      · rcases c with m | u
        · simp only [handle_payment_status, hj, hlt, if_pos hmem]
          exact storeInv_failedState s jid _ j hInv hj hJI.2.1
        · simp only [handle_payment_status, hj, hlt, if_pos hmem]
          exact storeInv_completedState s jid _ j hInv hj hJI.2.2

theorem storeInv_get (s : ServerState) (jid : String)
    (refresh : Except String (Option String)) (hInv : StoreInv s) :
    StoreInv (get_status s jid refresh).1 := by
  rcases hj : findJob jid s.jobs with _ | j
  · simpa [get_status, hj] using hInv
  · by_cases hmem : jid ∈ s.payment_instances
    · simp only [get_status, hj, if_pos hmem]
      obtain ⟨hdom, hjobs⟩ := hInv
      constructor
      · intro k hk
        by_cases hkj : k = jid
        · subst hkj
          rw [findJob_updateJob_self, hj]
          simp
        · rw [findJob_updateJob_ne jid k hkj]
          exact hdom k hk
      · intro k j' hj'
        by_cases hkj : k = jid
        · subst hkj
          rw [findJob_updateJob_self, hj] at hj'
          simp only [Option.map_some'] at hj'
          obtain rfl : j' = _ := (Option.some.inj hj').symm
          have hJI := hjobs k j hj
          exact ⟨fun h => hJI.1 h, fun h => hJI.2 h⟩
        · rw [findJob_updateJob_ne jid k hkj] at hj'
          have hJI := hjobs k j' hj'
          exact ⟨fun h => hJI.1 h, fun h => hJI.2 h⟩
    · simpa [get_status, hj, if_neg hmem] using hInv

theorem storeInv_start (s : ServerState) (jid : String) (req : StartJobRequest)
    (creation : Except String PaymentData) (env : Env)
    (hInv : StoreInv s) (hfresh : findJob jid s.jobs = none) :
    StoreInv (start_job s jid req creation env).1 := by
  rcases creation with e | pd
  · exact hInv
  · rcases hpid : pd.blockchainIdentifier with _ | pid
    · simpa [start_job, hpid] using hInv
    · obtain ⟨hdom, hjobs⟩ := hInv
      simp only [start_job, hpid]
      constructor
      · intro k hk
        rcases List.mem_cons.mp hk with hkj | hk1
        · subst hkj
          simp [findJob]
        · by_cases hkj : jid = k
          · subst hkj
            simp [findJob]
          · simp only [findJob, if_neg hkj]
            exact hdom k hk1
      · intro k j' hj'
        by_cases hkj : jid = k
        · subst hkj
          simp only [findJob, if_pos rfl] at hj'
          obtain rfl : j' = _ := (Option.some.inj hj').symm
          constructor
          · intro _
            exact ⟨rfl, rfl, rfl⟩
          · intro hmem
            exact absurd (List.mem_cons_self jid _) hmem
        · simp only [findJob, if_neg hkj] at hj'
          have hJI := hjobs k j' hj'
          constructor
          · intro hmem
            rcases List.mem_cons.mp hmem with h | h
            · exact absurd h.symm hkj
            · exact hJI.1 h
          · intro hmem
            exact hJI.2 (fun h1 => hmem (List.mem_cons_of_mem jid h1))

theorem storeInv_initial : StoreInv initialState := by
  constructor
  · intro k hk
    simp [initialState] at hk
  · intro k j hj
    simp [initialState, findJob] at hj

theorem reachable_storeInv {s : ServerState} (h : Reachable s) : StoreInv s := by
  induction h with
  | init => exact storeInv_initial
  | step op hr hall ih =>
      rcases op with ⟨jid, req, creation⟩ | ⟨jid, refresh⟩ | ⟨jid, t, c⟩
      · exact storeInv_start _ jid req creation defaultEnv ih
          (of_decide_eq_true hall)
      · exact storeInv_get _ jid refresh ih
      · exact storeInv_callback _ jid t c ih (of_decide_eq_true hall)

theorem findJob_failedState_ne {k jid : String} (hkj : k ≠ jid)
    (s : ServerState) (msg : String) :
    findJob k (failedState s jid msg).jobs = findJob k s.jobs :=
  findJob_updateJob_ne jid k hkj _ _

theorem findJob_completedState_ne {k jid : String} (hkj : k ≠ jid)
    (s : ServerState) (res : String) :
    findJob k (completedState s jid res).jobs = findJob k s.jobs :=
  findJob_updateJob_ne jid k hkj _ _

theorem hps_shape (s : ServerState) (jid : String) (t : Except String String)
    (c : Except String Unit) :
    (handle_payment_status s jid t c = s ∧ findJob jid s.jobs = none) ∨
    (∃ msg, handle_payment_status s jid t c = failedState s jid msg) ∨
    (∃ res, t = Except.ok res ∧ jid ∈ s.payment_instances ∧
       handle_payment_status s jid t c = completedState s jid res) := by
  rcases hj : findJob jid s.jobs with _ | j
  · refine Or.inl ⟨?_, rfl⟩
    simp only [handle_payment_status, hj]
  · rcases hlt : lookupStr "text" j.input_data with _ | txt
    · exact Or.inr (Or.inl ⟨"KeyError: text", by simp [handle_payment_status, hj, hlt]⟩)
    · rcases t with m | res
      · exact Or.inr (Or.inl ⟨m, by simp [handle_payment_status, hj, hlt]⟩)
      · by_cases hmem : jid ∈ s.payment_instances
        · rcases c with m | u
          · exact Or.inr (Or.inl ⟨m, by simp [handle_payment_status, hj, hlt, hmem]⟩)
          · exact Or.inr (Or.inr ⟨res, rfl, hmem,
              by simp [handle_payment_status, hj, hlt, hmem]⟩)
        · exact Or.inr (Or.inl ⟨"KeyError: " ++ jid,
            by simp [handle_payment_status, hj, hlt, hmem]⟩)

/-- The status order of the specification: a step may stay put, or move
from awaiting_payment to running, completed or failed, or from running
to completed or failed.  No step leaves completed or failed. -/
def stepForward (a b : String) : Bool :=
  a = b ||
  (a = "awaiting_payment" && (b = "running" || b = "completed" || b = "failed")) ||
  (a = "running" && (b = "completed" || b = "failed"))

theorem stepForward_refl (a : String) : stepForward a a = true := by
  simp [stepForward]

/-- A job currently awaiting payment may move anywhere forward. -/
theorem stepForward_awaiting :
    stepForward "awaiting_payment" "awaiting_payment" = true ∧
    stepForward "awaiting_payment" "completed" = true ∧
    stepForward "awaiting_payment" "failed" = true := by
  refine ⟨stepForward_refl _, ?_, ?_⟩ <;> decide

/-- Frame property: `get_status` leaves every field of every stored job unchanged
except, possibly, the queried job's `payment_status`. -/
theorem get_status_frame (s : ServerState) (jid : String)
    (refresh : Except String (Option String)) (k : String) (j : JobRecord)
    (hk : findJob k s.jobs = some j) :
    ∃ j', findJob k (get_status s jid refresh).1.jobs = some j' ∧
      j'.status = j.status ∧ j'.result = j.result ∧ j'.error = j.error ∧
      j'.input_data = j.input_data ∧ j'.payment_id = j.payment_id ∧
      j'.identifier_from_purchaser = j.identifier_from_purchaser := by
  by_cases hkj : k = jid
  · subst hkj
    by_cases hmem : k ∈ s.payment_instances
    · rcases refresh with e | st
      · refine ⟨{ j with payment_status := "error" }, ?_, rfl, rfl, rfl, rfl, rfl, rfl⟩
        simp only [get_status, hk, if_pos hmem]
        rw [findJob_updateJob_self, hk]
        rfl
      · refine ⟨{ j with payment_status := st.getD "unknown" }, ?_,
          rfl, rfl, rfl, rfl, rfl, rfl⟩
        simp only [get_status, hk, if_pos hmem]
        rw [findJob_updateJob_self, hk]
        rfl
    · refine ⟨j, ?_, rfl, rfl, rfl, rfl, rfl, rfl⟩
      simp only [get_status, hk, if_neg hmem]
  · refine ⟨j, ?_, rfl, rfl, rfl, rfl, rfl, rfl⟩
    rcases hj : findJob jid s.jobs with _ | j0
    · simp only [get_status, hj]
      exact hk
    · by_cases hmem : jid ∈ s.payment_instances
      · simp only [get_status, hj, if_pos hmem]
        rw [findJob_updateJob_ne jid k hkj]
        exact hk
      · simp only [get_status, hj, if_neg hmem]
        exact hk

/-- Unknown id: `get_status` with the queried id absent from the store touches
nothing and reports 404. -/
theorem get_status_unknown (s : ServerState) (jid : String)
    (refresh : Except String (Option String))
    (h : findJob jid s.jobs = none) :
    get_status s jid refresh = (s, StatusResult.notFound "Job not found") := by
  simp [get_status, h]

/-- A job already terminal is untouched by any allowed operation. -/
theorem terminal_frame (s : ServerState) (op : Op) (hInv : StoreInv s)
    (hall : allowedOp s op = true) (k : String) (j : JobRecord)
    (hk : findJob k s.jobs = some j)
    (hterm : j.status = "completed" ∨ j.status = "failed") :
    findJob k (applyOp s op).jobs = some j := by
  have hkmem : k ∉ s.payment_instances := by
    intro hmem
    have haw := ((hInv.2 k j hk).1 hmem).1
    rcases hterm with h | h <;> rw [haw] at h <;> exact absurd h (by decide)
  rcases op with ⟨jid, req, creation⟩ | ⟨jid, refresh⟩ | ⟨jid, t, c⟩
  · have hfresh : findJob jid s.jobs = none := of_decide_eq_true hall
    have hkj : jid ≠ k := by
      intro h
      rw [h, hk] at hfresh
      exact absurd hfresh (by simp)
    rcases creation with e | pd
    · exact hk
    · rcases hpid : pd.blockchainIdentifier with _ | pid
      · simpa [applyOp, start_job, hpid] using hk
      · simp only [applyOp, start_job, hpid]
        simpa [findJob, if_neg hkj] using hk
  · rcases hj : findJob jid s.jobs with _ | j0
    · simpa [applyOp, get_status, hj] using hk
    · by_cases hmem : jid ∈ s.payment_instances
      · have hkj : k ≠ jid := by
          intro h
          exact hkmem (h ▸ hmem)
        simp only [applyOp, get_status, hj, if_pos hmem]
        rw [findJob_updateJob_ne jid k hkj]
        exact hk
      · simpa [applyOp, get_status, hj, hmem] using hk
  · have hjm : jid ∈ s.payment_instances := of_decide_eq_true hall
    have hkj : k ≠ jid := by
      intro h
      exact hkmem (h ▸ hjm)
    rcases hps_shape s jid t c with ⟨heq, _⟩ | ⟨msg, heq⟩ | ⟨res, _, _, heq⟩
    · simpa [applyOp, heq] using hk
    · show findJob k (handle_payment_status s jid t c).jobs = some j
      rw [heq, findJob_failedState_ne hkj]
      exact hk
    · show findJob k (handle_payment_status s jid t c).jobs = some j
      rw [heq, findJob_completedState_ne hkj]
      exact hk

/-- Response of `get_status` for a stored job: always a 200 body
echoing the job id, the stored status and result; `payment_status` is
the refreshed value when the job still has a payment instance
(degraded to "error" on a raised refresh, "unknown" on a response
without a status field), and the stored value otherwise. -/
theorem get_status_known (s : ServerState) (jid : String)
    (refresh : Except String (Option String)) (j : JobRecord)
    (hj : findJob jid s.jobs = some j) :
    ∃ body, (get_status s jid refresh).2 = StatusResult.ok body ∧
      body.job_id = jid ∧ body.status = j.status ∧ body.result = j.result ∧
      body.payment_status = (if jid ∈ s.payment_instances then
          (match refresh with
           | Except.ok st => st.getD "unknown"
           | Except.error _ => "error")
        else j.payment_status) := by
  by_cases hmem : jid ∈ s.payment_instances
  · rcases refresh with e | st
    · refine ⟨{ job_id := jid, status := j.status, payment_status := "error",
                result := j.result }, ?_, rfl, rfl, rfl, ?_⟩
      · simp only [get_status, hj, if_pos hmem]
      · simp [if_pos hmem]
    · refine ⟨{ job_id := jid, status := j.status,
                payment_status := st.getD "unknown",
                result := j.result }, ?_, rfl, rfl, rfl, ?_⟩
      · simp only [get_status, hj, if_pos hmem]
      · simp [if_pos hmem]
  · refine ⟨{ job_id := jid, status := j.status,
              payment_status := j.payment_status,
              result := j.result }, ?_, rfl, rfl, rfl, ?_⟩
    · simp only [get_status, hj, if_neg hmem]
    · simp [if_neg hmem]

/-- Inserting a fresh job leaves every existing job record intact. -/
theorem start_job_preserves_existing (s : ServerState) (jid2 : String)
    (req : StartJobRequest) (creation : Except String PaymentData) (env : Env)
    (k : String) (j : JobRecord) (hfresh : findJob jid2 s.jobs = none)
    (hk : findJob k s.jobs = some j) :
    findJob k (start_job s jid2 req creation env).1.jobs = some j := by
  have hne : jid2 ≠ k := by
    intro h
    rw [h, hk] at hfresh
    exact absurd hfresh (by simp)
  rcases creation with e | pd
  · exact hk
  · rcases hpid : pd.blockchainIdentifier with _ | pid
    · simpa [start_job, hpid] using hk
    · simp only [start_job, hpid]
      simpa [findJob, if_neg hne] using hk

/-- A JSON value, enough to state what `GET /input_schema` returns. -/
inductive Json where
  | str (s : String)
  | num (n : Int)
  | arr (xs : List Json)
  | obj (fields : List (String × Json))

/-- Lookup in a JSON object field list. -/
def lookupJson (key : String) : List (String × Json) → Option Json
  | [] => none
  | (k, v) :: rest => if k = key then some v else lookupJson key rest

/-- Member access on a JSON object (`data["key"]` / `"key" in data`). -/
def Json.getKey (j : Json) (key : String) : Option Json :=
  match j with
  | .obj fields => lookupJson key fields
  | _ => none

/-- The top-level keys of a JSON object. -/
def Json.topKeys : Json → List String
  | .obj fields => fields.map Prod.fst
  | _ => []

/-- Modelled pydantic-v2 library behaviour: the JSON Schema that
`model_json_schema()` produces for `InputDataField`
(`src/agent/models.py` lines 31-38) — a schema document describing the
model, referenced from the `InputSchema` schema below. -/
def inputDataField_schema : Json :=
  .obj [("description", .str "Information about an input field."),
        ("properties", .obj [
           ("id", .obj [("title", .str "Id"), ("type", .str "string")]),
           ("type", .obj [("title", .str "Type"), ("type", .str "string")]),
           ("name", .obj [("title", .str "Name"), ("type", .str "string")]),
           ("data", .obj [("additionalProperties", .obj [("type", .str "string")]),
                          ("title", .str "Data"), ("type", .str "object")])]),
        ("required", .arr [.str "id", .str "type", .str "name", .str "data"]),
        ("title", .str "InputDataField"),
        ("type", .str "object")]

/-- The value returned by the `GET /input_schema` handler
(`src/main.py` lines 234-238): `InputSchema.model_json_schema()`.
Modelled pydantic-v2 library behaviour on the `InputSchema` model
(`src/agent/models.py` lines 40-44): `model_json_schema()` returns the
JSON *Schema* document describing the model — an object whose
top-level keys are the schema keywords — and not an instance of the
model, so there is no top-level `input_data` member, only a
`properties.input_data` schema entry. -/
def input_schema_response_body : Json :=
  .obj [("$defs", .obj [("InputDataField", inputDataField_schema)]),
        ("description", .str "Response model for input schema."),
        ("properties", .obj [("input_data", .obj [
            ("items", .obj [("$ref", .str "#/$defs/InputDataField")]),
            ("title", .str "Input Data"),
            ("type", .str "array")])]),
        ("required", .arr [.str "input_data"]),
        ("title", .str "InputSchema"),
        ("type", .str "object")]

/-- A raw `POST /start_job` JSON body before validation: either
required field may be missing. -/
structure RawStartJobRequest where
  identifier_from_purchaser : Option String
  input_data : Option (List (String × String))
deriving Repr, DecidableEq

/-- Outcome of binding a raw body to `StartJobRequest`. -/
inductive BindResult where
  | ok (req : StartJobRequest)
  | validationError (missingFields : List String)
deriving Repr, DecidableEq

/-- Modelled FastAPI/pydantic request binding for `StartJobRequest`
(`src/agent/models.py` lines 4-9): both fields are declared required
(`Field(...)`), so a body missing either one fails validation before
the handler body runs. -/
def bindStartJobRequest (raw : RawStartJobRequest) : BindResult :=
  match raw.identifier_from_purchaser, raw.input_data with
  | some i, some d => .ok { identifier_from_purchaser := i, input_data := d }
  | i, d =>
      .validationError
        ((if i.isNone then ["identifier_from_purchaser"] else []) ++
         (if d.isNone then ["input_data"] else []))

/-- What the route returns: the handler outcome, or FastAPI's default
`RequestValidationError` response — HTTP 422 whose body's `detail` is
a list of error records naming the offending fields. -/
inductive RouteStartResult where
  | handled (r : StartResult)
  | validationRejected (code : Nat) (missingFields : List String)
deriving Repr, DecidableEq

/-- The `POST /start_job` route as seen by a client: FastAPI binds the
body to `StartJobRequest` and only calls the handler (`start_job`) on
success; the service defines no custom validation handler, so pydantic
validation failures never reach the `except` clauses of
`src/main.py` lines 191-202 and surface as FastAPI's default 422. -/
def route_start_job (s : ServerState) (jid : String) (raw : RawStartJobRequest)
    (creation : Except String PaymentData) (env : Env) :
    ServerState × RouteStartResult :=
  match bindStartJobRequest raw with
  | .validationError fields => (s, .validationRejected 422 fields)
  | .ok req =>
      let r := start_job s jid req creation env
      (r.1, .handled r.2)

/-- HTTP status code of a route outcome. -/
def routeStartCode : RouteStartResult → Nat
  | .handled (.ok _) => 200
  | .handled (.httpError c _) => c
  | .validationRejected c _ => c

/-- Claim C3: refuted by the code.  The `GET /input_schema` handler
returns `InputSchema.model_json_schema()` — the JSON Schema document
describing the model, whose top-level keys are the schema keywords —
so the body has no `input_data` member at all, hence no non-empty
`input_data` list of field descriptors.  The repository's own test
(`src/tests/test_endpoints.py` lines 23-33) asserts that member and
contradicts the handler. -/
theorem input_schema_body_lacks_input_data :
    Json.getKey input_schema_response_body "input_data" = none ∧
    (Json.getKey input_schema_response_body "properties").isSome = true ∧
    Json.topKeys input_schema_response_body =
      ["$defs", "description", "properties", "required", "title", "type"] :=
  ⟨rfl, rfl, rfl⟩

/-- Claim C4 (amended): a `POST /start_job` body missing a required
field (`identifier_from_purchaser` or `input_data`) is rejected by
FastAPI validation with HTTP 422 — not the 400 the claim states —
whose detail is a non-empty list of validation-error records, and the
job store is unchanged. -/
theorem missing_field_rejected_with_422 (s : ServerState) (jid : String)
    (raw : RawStartJobRequest) (creation : Except String PaymentData)
    (env : Env)
    (h : raw.identifier_from_purchaser = none ∨ raw.input_data = none) :
    (route_start_job s jid raw creation env).1 = s ∧
    ∃ fields, (route_start_job s jid raw creation env).2 =
        RouteStartResult.validationRejected 422 fields ∧ fields ≠ [] ∧
      routeStartCode (route_start_job s jid raw creation env).2 = 422 := by
  obtain ⟨i, d⟩ := raw
  rcases h with h | h
  · have hi : i = none := h
    subst hi
    rcases d with _ | d
    · exact ⟨rfl, ["identifier_from_purchaser", "input_data"], rfl, by simp, rfl⟩
    · exact ⟨rfl, ["identifier_from_purchaser"], rfl, by simp, rfl⟩
  · have hd : d = none := h
    subst hd
    rcases i with _ | i
    · exact ⟨rfl, ["identifier_from_purchaser", "input_data"], rfl, by simp, rfl⟩
    · exact ⟨rfl, ["input_data"], rfl, by simp, rfl⟩

theorem missing_field_rejected_with_422_witness :
    (route_start_job initialState "jw4"
        { identifier_from_purchaser := none, input_data := some [("text", "x")] }
        (Except.error "down") defaultEnv).1 = initialState ∧
    ∃ fields, (route_start_job initialState "jw4"
        { identifier_from_purchaser := none, input_data := some [("text", "x")] }
        (Except.error "down") defaultEnv).2 =
        RouteStartResult.validationRejected 422 fields ∧ fields ≠ [] ∧
      routeStartCode (route_start_job initialState "jw4"
        { identifier_from_purchaser := none, input_data := some [("text", "x")] }
        (Except.error "down") defaultEnv).2 = 422 :=
  missing_field_rejected_with_422 initialState "jw4"
    { identifier_from_purchaser := none, input_data := some [("text", "x")] }
    (Except.error "down") defaultEnv (Or.inl rfl)

/-- Claim C4, counterexample: a concrete request missing
`identifier_from_purchaser` is answered with HTTP 422 (FastAPI's
default for request-validation errors), not the 400 the claim
states. -/
theorem missing_field_yields_422_not_400 :
    routeStartCode (route_start_job initialState "jid4"
        { identifier_from_purchaser := none, input_data := some [("text", "x")] }
        (Except.ok { blockchainIdentifier := some "b4", submitResultTime := some 1,
                     unlockTime := some 2, externalDisputeUnlockTime := some 3 })
        defaultEnv).2 = 422 ∧ (422 : Nat) ≠ 400 :=
  ⟨rfl, by decide⟩

/-- Claim C5: `start_job` is atomic with respect to the job store —
when payment-request creation raises, the call returns the 400
`HTTPException` with the store unchanged (the store insertion at
`src/main.py` line 156 happens strictly after the successful creation
at line 150), and whenever the store did change, creation succeeded
and returned the `blockchainIdentifier` stored on the new
awaiting_payment job, so no awaiting_payment job exists without its
payment request. -/
theorem start_job_atomic (s : ServerState) (jid : String)
    (req : StartJobRequest) (env : Env) :
    (∀ e, start_job s jid req (Except.error e) env =
       (s, StartResult.httpError 400 ("Error: " ++ e))) ∧
    (∀ creation, (start_job s jid req creation env).1 ≠ s →
       ∃ pd pid, creation = Except.ok pd ∧ pd.blockchainIdentifier = some pid ∧
         findJob jid (start_job s jid req creation env).1.jobs = some
           { status := "awaiting_payment", payment_status := "pending",
             payment_id := pid, input_data := req.input_data,
             result := none, error := none,
             identifier_from_purchaser := req.identifier_from_purchaser }) := by
  constructor
  · intro e
    rfl
  · intro creation hne
    rcases creation with e | pd
    · exact absurd rfl hne
    · rcases hpid : pd.blockchainIdentifier with _ | pid
      · refine absurd ?_ hne
        simp [start_job, hpid]
      · refine ⟨pd, pid, rfl, hpid, ?_⟩
        simp [start_job, hpid, findJob]

theorem start_job_atomic_witness :
    start_job initialState "jw5"
        { identifier_from_purchaser := "p5", input_data := [("text", "t5")] }
        (Except.error "boom") defaultEnv =
      (initialState, StartResult.httpError 400 ("Error: " ++ "boom")) ∧
    ∃ pd pid,
      (Except.ok { blockchainIdentifier := some "b5", submitResultTime := some 1,
                   unlockTime := some 2, externalDisputeUnlockTime := some 3 } :
        Except String PaymentData) = Except.ok pd ∧
      pd.blockchainIdentifier = some pid ∧
      findJob "jw5" (start_job initialState "jw5"
          { identifier_from_purchaser := "p5", input_data := [("text", "t5")] }
          (Except.ok { blockchainIdentifier := some "b5", submitResultTime := some 1,
                       unlockTime := some 2, externalDisputeUnlockTime := some 3 })
          defaultEnv).1.jobs = some
        { status := "awaiting_payment", payment_status := "pending",
          payment_id := pid, input_data := [("text", "t5")],
          result := none, error := none,
          identifier_from_purchaser := "p5" } :=
  ⟨(start_job_atomic initialState "jw5"
      { identifier_from_purchaser := "p5", input_data := [("text", "t5")] }
      defaultEnv).1 "boom",
   (start_job_atomic initialState "jw5"
      { identifier_from_purchaser := "p5", input_data := [("text", "t5")] }
      defaultEnv).2
     (Except.ok { blockchainIdentifier := some "b5", submitResultTime := some 1,
                  unlockTime := some 2, externalDisputeUnlockTime := some 3 })
     (by decide)⟩

/-- Claim C8: for every job id absent from the store, `GET /status`
returns HTTP 404 with detail exactly "Job not found" and leaves the
store unchanged. -/
theorem get_status_unknown_404 (s : ServerState) (jid : String)
    (refresh : Except String (Option String))
    (h : findJob jid s.jobs = none) :
    get_status s jid refresh = (s, StatusResult.notFound "Job not found") ∧
    statusHttpCode (get_status s jid refresh).2 = 404 := by
  have hgs : get_status s jid refresh = (s, StatusResult.notFound "Job not found") := by
    simp [get_status, h]
  exact ⟨hgs, by rw [hgs]; rfl⟩

theorem get_status_unknown_404_witness :
    get_status initialState "does-not-exist" (Except.ok none) =
      (initialState, StatusResult.notFound "Job not found") ∧
    statusHttpCode (get_status initialState "does-not-exist" (Except.ok none)).2 = 404 :=
  get_status_unknown_404 initialState "does-not-exist" (Except.ok none) rfl

/-- Claim C7: for every known job, `get_status` never fails because of
a failed live payment-status refresh — the call returns 200 with the
job's current status, and `payment_status` degrades to "error" when
the refresh raises, or to "unknown" when its response carries no
status field. -/
theorem get_status_survives_refresh_failure (s : ServerState) (jid : String)
    (j : JobRecord) (refresh : Except String (Option String))
    (hj : findJob jid s.jobs = some j) :
    statusHttpCode (get_status s jid refresh).2 = 200 ∧
    ∃ body, (get_status s jid refresh).2 = StatusResult.ok body ∧
      body.status = j.status ∧
      (∀ e, jid ∈ s.payment_instances → refresh = Except.error e →
         body.payment_status = "error") ∧
      (jid ∈ s.payment_instances → refresh = Except.ok none →
         body.payment_status = "unknown") := by
  obtain ⟨body, hbody, _, hstat, _, hps⟩ := get_status_known s jid refresh j hj
  refine ⟨by rw [hbody]; rfl, body, hbody, hstat, ?_, ?_⟩
  · intro e hmem he
    subst he
    rw [hps, if_pos hmem]
  · intro hmem he
    subst he
    rw [hps, if_pos hmem]
    rfl

def w7_req : StartJobRequest :=
  { identifier_from_purchaser := "p7", input_data := [("text", "t7")] }

def w7_pd : PaymentData :=
  { blockchainIdentifier := some "b7", submitResultTime := some 1,
    unlockTime := some 2, externalDisputeUnlockTime := some 3 }

def w7_state : ServerState :=
  (start_job initialState "jw7" w7_req (Except.ok w7_pd) defaultEnv).1

def w7_job : JobRecord :=
  { status := "awaiting_payment", payment_status := "pending",
    payment_id := "b7", input_data := [("text", "t7")],
    result := none, error := none, identifier_from_purchaser := "p7" }

theorem get_status_survives_refresh_failure_witness :
    statusHttpCode (get_status w7_state "jw7" (Except.error "boom")).2 = 200 ∧
    ∃ body, (get_status w7_state "jw7" (Except.error "boom")).2 = StatusResult.ok body ∧
      body.status = w7_job.status ∧
      (∀ e, "jw7" ∈ w7_state.payment_instances →
         (Except.error "boom" : Except String (Option String)) = Except.error e →
         body.payment_status = "error") ∧
      ("jw7" ∈ w7_state.payment_instances →
         (Except.error "boom" : Except String (Option String)) = Except.ok none →
         body.payment_status = "unknown") :=
  get_status_survives_refresh_failure w7_state "jw7" w7_job
    (Except.error "boom") (by decide)

/-- Claim C9: write separation — `get_status` changes at most the
queried job's `payment_status` (its status, result, error, input_data,
payment_id and identifier_from_purchaser are untouched, as is every
other job), and `start_job` with its fresh uuid never rewrites an
existing record; so only `handle_payment_status`, the
payment-completion transition, writes `status` and `result` of a
stored job. -/
theorem write_separation (s : ServerState) (jid : String)
    (refresh : Except String (Option String)) (k : String) (j : JobRecord)
    (hk : findJob k s.jobs = some j) :
    (∃ j', findJob k (get_status s jid refresh).1.jobs = some j' ∧
       j'.status = j.status ∧ j'.result = j.result ∧ j'.error = j.error ∧
       j'.input_data = j.input_data ∧ j'.payment_id = j.payment_id ∧
       j'.identifier_from_purchaser = j.identifier_from_purchaser) ∧
    (∀ jid2 req creation env, findJob jid2 s.jobs = none →
       findJob k (start_job s jid2 req creation env).1.jobs = some j) :=
  ⟨get_status_frame s jid refresh k j hk,
   fun jid2 req creation env hfresh =>
     start_job_preserves_existing s jid2 req creation env k j hfresh hk⟩

def w9_req : StartJobRequest :=
  { identifier_from_purchaser := "p9", input_data := [("text", "t9")] }

def w9_pd : PaymentData :=
  { blockchainIdentifier := some "b9", submitResultTime := some 1,
    unlockTime := some 2, externalDisputeUnlockTime := some 3 }

def w9_state : ServerState :=
  (start_job initialState "jw9" w9_req (Except.ok w9_pd) defaultEnv).1

def w9_job : JobRecord :=
  { status := "awaiting_payment", payment_status := "pending",
    payment_id := "b9", input_data := [("text", "t9")],
    result := none, error := none, identifier_from_purchaser := "p9" }

theorem write_separation_witness :
    (∃ j', findJob "jw9" (get_status w9_state "jw9" (Except.error "x")).1.jobs = some j' ∧
       j'.status = w9_job.status ∧ j'.result = w9_job.result ∧
       j'.error = w9_job.error ∧ j'.input_data = w9_job.input_data ∧
       j'.payment_id = w9_job.payment_id ∧
       j'.identifier_from_purchaser = w9_job.identifier_from_purchaser) ∧
    findJob "jw9" (start_job w9_state "fresh9" w9_req (Except.ok w9_pd)
        defaultEnv).1.jobs = some w9_job := by
  have h := write_separation w9_state "jw9" (Except.error "x") "jw9" w9_job (by decide)
  exact ⟨h.1, h.2 "fresh9" w9_req (Except.ok w9_pd) defaultEnv (by decide)⟩

/-- Claim C10: `start_job` performs no content validation — a request
whose `identifier_from_purchaser` is empty or whose `input_data` lacks
the "text" key (the handler only reads it with `.get("text", "")` for
logging, `src/main.py` line 126) still gets a 200 "success" response
and a stored awaiting_payment job, provided payment creation succeeds
with a well-formed response; a missing "text" key surfaces only later,
when the payment-completion transition catches the `KeyError` of
`jobs[job_id]["input_data"]["text"]` and marks the job failed. -/
theorem start_job_no_content_validation (s : ServerState) (jid : String)
    (req : StartJobRequest) (pd : PaymentData) (pid : String)
    (t1 t2 t3 : Int) (env : Env)
    (hpd : pd = { blockchainIdentifier := some pid, submitResultTime := some t1,
                  unlockTime := some t2, externalDisputeUnlockTime := some t3 })
    (hreq : req.identifier_from_purchaser = "" ∨
            lookupStr "text" req.input_data = none) :
    (∃ r, (start_job s jid req (Except.ok pd) env).2 = StartResult.ok r ∧
       r.status = "success") ∧
    (∃ j, findJob jid (start_job s jid req (Except.ok pd) env).1.jobs = some j ∧
       j.status = "awaiting_payment") ∧
    (lookupStr "text" req.input_data = none → ∀ t c, ∃ j,
       findJob jid (handle_payment_status
           (start_job s jid req (Except.ok pd) env).1 jid t c).jobs = some j ∧
       j.status = "failed" ∧ j.error = some "KeyError: text") := by
  subst hpd
  have h1 : findJob jid (start_job s jid req
      (Except.ok { blockchainIdentifier := some pid, submitResultTime := some t1,
                   unlockTime := some t2,
                   externalDisputeUnlockTime := some t3 }) env).1.jobs = some
      { status := "awaiting_payment", payment_status := "pending",
        payment_id := pid, input_data := req.input_data,
        result := none, error := none,
        identifier_from_purchaser := req.identifier_from_purchaser } := by
    simp [start_job, findJob]
  refine ⟨⟨_, rfl, rfl⟩, ⟨_, h1, rfl⟩, ?_⟩
  intro hno t c
  refine ⟨failUpd "KeyError: text"
    { status := "awaiting_payment", payment_status := "pending",
      payment_id := pid, input_data := req.input_data,
      result := none, error := none,
      identifier_from_purchaser := req.identifier_from_purchaser }, ?_, rfl, rfl⟩
  have h2 : handle_payment_status (start_job s jid req
      (Except.ok { blockchainIdentifier := some pid, submitResultTime := some t1,
                   unlockTime := some t2,
                   externalDisputeUnlockTime := some t3 }) env).1 jid t c
      = failedState (start_job s jid req
          (Except.ok { blockchainIdentifier := some pid, submitResultTime := some t1,
                       unlockTime := some t2,
                       externalDisputeUnlockTime := some t3 }) env).1 jid
          "KeyError: text" := by
    simp only [handle_payment_status, h1, hno]
  rw [h2, findJob_failedState_self, h1]
  rfl

def w10_req : StartJobRequest :=
  { identifier_from_purchaser := "", input_data := [("other", "x")] }

theorem start_job_no_content_validation_witness :
    (∃ r, (start_job initialState "jw10" w10_req
        (Except.ok { blockchainIdentifier := some "b10", submitResultTime := some 1,
                     unlockTime := some 2, externalDisputeUnlockTime := some 3 })
        defaultEnv).2 = StartResult.ok r ∧ r.status = "success") ∧
    (∃ j, findJob "jw10" (start_job initialState "jw10" w10_req
        (Except.ok { blockchainIdentifier := some "b10", submitResultTime := some 1,
                     unlockTime := some 2, externalDisputeUnlockTime := some 3 })
        defaultEnv).1.jobs = some j ∧ j.status = "awaiting_payment") ∧
    (lookupStr "text" w10_req.input_data = none → ∀ t c, ∃ j,
       findJob "jw10" (handle_payment_status
           (start_job initialState "jw10" w10_req
             (Except.ok { blockchainIdentifier := some "b10",
                          submitResultTime := some 1, unlockTime := some 2,
                          externalDisputeUnlockTime := some 3 })
             defaultEnv).1 "jw10" t c).jobs = some j ∧
       j.status = "failed" ∧ j.error = some "KeyError: text") :=
  start_job_no_content_validation initialState "jw10" w10_req _ "b10" 1 2 3
    defaultEnv rfl (Or.inl rfl)

def c1_req : StartJobRequest :=
  { identifier_from_purchaser := "p1", input_data := [("text", "hello")] }

def c1_pd : PaymentData :=
  { blockchainIdentifier := some "block-1", submitResultTime := some 100,
    unlockTime := some 200, externalDisputeUnlockTime := some 300 }

def c1_afterStart : ServerState :=
  (start_job initialState "job-1" c1_req (Except.ok c1_pd) defaultEnv).1

def c1_afterFirst : ServerState :=
  handle_payment_status c1_afterStart "job-1" (Except.ok "answer") (Except.ok ())

def c1_afterSecond : ServerState :=
  handle_payment_status c1_afterFirst "job-1" (Except.ok "answer") (Except.ok ())

/-- Claim C1: refuted by the code.  `handle_payment_status` has no
terminal-state guard: after a job completes (and its payment instance
is deleted, `src/main.py` lines 91-93), a second invocation of the
callback re-enters the transition, sets the status to running, and —
because `payment_instances[job_id]` now raises `KeyError` at line 82 —
falls into the `except` block: the job flips from completed to failed
and `error` is written.  The second invocation is therefore not a
no-op on a terminal job. -/
theorem second_callback_not_noop :
    (findJob "job-1" c1_afterFirst.jobs).map JobRecord.status = some "completed" ∧
    (findJob "job-1" c1_afterFirst.jobs).map JobRecord.error = some none ∧
    (findJob "job-1" c1_afterSecond.jobs).map JobRecord.status = some "failed" ∧
    (findJob "job-1" c1_afterSecond.jobs).map JobRecord.error =
      some (some ("KeyError: " ++ "job-1")) := by
  decide

def c2_req : StartJobRequest :=
  { identifier_from_purchaser := "p2", input_data := [("text", "story")] }

def c2_pd : PaymentData :=
  { blockchainIdentifier := some "block-2", submitResultTime := some 100,
    unlockTime := some 200, externalDisputeUnlockTime := some 300 }

def c2_afterStart : ServerState :=
  applyOp initialState (Op.startJob "job-2" c2_req (Except.ok c2_pd))

def c2_afterFirst : ServerState :=
  applyOp c2_afterStart (Op.paymentCallback "job-2" (Except.ok "out") (Except.ok ()))

def c2_afterSecond : ServerState :=
  applyOp c2_afterFirst (Op.paymentCallback "job-2" (Except.ok "out") (Except.ok ()))

/-- Claim C2, counterexample: a concrete sequence of operations —
start_job, then the payment-completion callback fired twice (the
degenerate double fire the spec itself contemplates) — under which a
job whose status is completed changes to failed, leaving a terminal
state.  The claim quantified over every operation sequence is
therefore false on the code. -/
theorem completed_job_leaves_terminal_status :
    (findJob "job-2" c2_afterFirst.jobs).map JobRecord.status = some "completed" ∧
    (findJob "job-2" c2_afterSecond.jobs).map JobRecord.status = some "failed" ∧
    stepForward "completed" "failed" = false := by
  decide

/-- Claim C2 (amended): under the service's own operating discipline —
job ids are fresh uuid4 strings and the payment-completion callback
fires only while the job is still monitored (hence at most once per
job, since the callback deletes the payment instance and stops
monitoring) — every operation moves a job's status only forward along
awaiting_payment → running → completed, or to failed, and no operation
changes the status of a job that is completed or failed. -/
theorem status_steps_forward {s : ServerState} (hs : Reachable s) (op : Op)
    (hop : allowedOp s op = true) (jid : String) (j j' : JobRecord)
    (hj : findJob jid s.jobs = some j)
    (hj' : findJob jid (applyOp s op).jobs = some j') :
    stepForward j.status j'.status = true := by
  have hInv := reachable_storeInv hs
  rcases op with ⟨jid0, req, creation⟩ | ⟨jid0, refresh⟩ | ⟨jid0, t, c⟩
  · have hfresh : findJob jid0 s.jobs = none := of_decide_eq_true hop
    have heq : findJob jid (applyOp s (Op.startJob jid0 req creation)).jobs = some j :=
      start_job_preserves_existing s jid0 req creation defaultEnv jid j hfresh hj
    rw [heq] at hj'
    obtain rfl : j = j' := Option.some.inj hj'
    exact stepForward_refl _
  · obtain ⟨j2, hfind, hstat, _⟩ := get_status_frame s jid0 refresh jid j hj
    rw [show (applyOp s (Op.getStatus jid0 refresh)) = (get_status s jid0 refresh).1
          from rfl, hfind] at hj'
    obtain rfl : j2 = j' := Option.some.inj hj'
    rw [hstat]
    exact stepForward_refl _
  · have hmem : jid0 ∈ s.payment_instances := of_decide_eq_true hop
    by_cases hkj : jid = jid0
    · subst hkj
      have haw : j.status = "awaiting_payment" := ((hInv.2 jid j hj).1 hmem).1
      rcases hps_shape s jid t c with ⟨heq, hnone⟩ | ⟨msg, heq⟩ | ⟨res, _, _, heq⟩
      · rw [hnone] at hj
        cases hj
      · have hfind : findJob jid (applyOp s (Op.paymentCallback jid t c)).jobs
            = (findJob jid s.jobs).map (failUpd msg) := by
          show findJob jid (handle_payment_status s jid t c).jobs = _
          rw [heq]
          exact findJob_failedState_self s jid msg
        rw [hfind, hj] at hj'
        simp only [Option.map_some'] at hj'
        obtain rfl : failUpd msg j = j' := Option.some.inj hj'
        rw [haw]
        show stepForward "awaiting_payment" "failed" = true
        decide
      · have hfind : findJob jid (applyOp s (Op.paymentCallback jid t c)).jobs
            = (findJob jid s.jobs).map (completeUpd res) := by
          show findJob jid (handle_payment_status s jid t c).jobs = _
          rw [heq]
          exact findJob_completedState_self s jid res
        rw [hfind, hj] at hj'
        simp only [Option.map_some'] at hj'
        obtain rfl : completeUpd res j = j' := Option.some.inj hj'
        rw [haw]
        show stepForward "awaiting_payment" "completed" = true
        decide
    · have hne : jid ≠ jid0 := hkj
      have hfind : findJob jid (applyOp s (Op.paymentCallback jid0 t c)).jobs
          = findJob jid s.jobs := by
        show findJob jid (handle_payment_status s jid0 t c).jobs = _
        rcases hps_shape s jid0 t c with ⟨heq, _⟩ | ⟨msg, heq⟩ | ⟨res, _, _, heq⟩
        · rw [heq]
        · rw [heq]
          exact findJob_failedState_ne hne s msg
        · rw [heq]
          exact findJob_completedState_ne hne s res
      rw [hfind, hj] at hj'
      obtain rfl : j = j' := Option.some.inj hj'
      exact stepForward_refl _

def w2_req : StartJobRequest :=
  { identifier_from_purchaser := "p2w", input_data := [("text", "t2")] }

def w2_pd : PaymentData :=
  { blockchainIdentifier := some "b2w", submitResultTime := some 1,
    unlockTime := some 2, externalDisputeUnlockTime := some 3 }

def w2_op0 : Op := Op.startJob "jw2" w2_req (Except.ok w2_pd)

def w2_state : ServerState := applyOp initialState w2_op0

def w2_job : JobRecord :=
  { status := "awaiting_payment", payment_status := "pending",
    payment_id := "b2w", input_data := [("text", "t2")],
    result := none, error := none, identifier_from_purchaser := "p2w" }

def w2_op : Op := Op.paymentCallback "jw2" (Except.ok "r") (Except.ok ())

theorem status_steps_forward_witness :
    stepForward w2_job.status (completeUpd "r" w2_job).status = true :=
  status_steps_forward (Reachable.step w2_op0 Reachable.init (by decide))
    w2_op (by decide) "jw2" w2_job (completeUpd "r" w2_job)
    (by decide) (by decide)

def c6_req : StartJobRequest :=
  { identifier_from_purchaser := "p6", input_data := [("text", "summary")] }

def c6_pd : PaymentData :=
  { blockchainIdentifier := some "block-6", submitResultTime := some 100,
    unlockTime := some 200, externalDisputeUnlockTime := some 300 }

def c6_afterStart : ServerState :=
  (start_job initialState "job-6" c6_req (Except.ok c6_pd) defaultEnv).1

def c6_afterFirst : ServerState :=
  handle_payment_status c6_afterStart "job-6" (Except.ok "answer6") (Except.ok ())

def c6_afterSecond : ServerState :=
  handle_payment_status c6_afterFirst "job-6" (Except.ok "answer6") (Except.ok ())

/-- Claim C6, counterexample: after a completed job receives a second
callback invocation, its record has status "failed" while `result` is
still non-null (the except block writes only `status` and `error`,
`src/main.py` lines 96-97), so "result is non-null iff status ==
completed" is false for a reachable record, and the completed job's
result is not stable. -/
theorem failed_job_retains_result :
    (findJob "job-6" c6_afterSecond.jobs).map JobRecord.status = some "failed" ∧
    (findJob "job-6" c6_afterSecond.jobs).map JobRecord.result =
      some (some "answer6") := by
  decide

/-- Claim C6 (amended): in every state reachable under the service's
own discipline (fresh job ids; the callback fired only while the job
is monitored, hence at most once), `result` is non-null iff the status
is completed and `error` is non-null iff the status is failed; and
once completed, the job's record is frozen by every further allowed
operation, with `get_status` returning that same result. -/
theorem result_iff_completed (s : ServerState) (hs : Reachable s)
    (jid : String) (j : JobRecord) (hj : findJob jid s.jobs = some j) :
    ((j.result ≠ none ↔ j.status = "completed") ∧
     (j.error ≠ none ↔ j.status = "failed")) ∧
    (j.status = "completed" →
       (∀ op, allowedOp s op = true →
          findJob jid (applyOp s op).jobs = some j) ∧
       (∀ refresh, ∃ body, (get_status s jid refresh).2 = StatusResult.ok body ∧
          body.result = j.result)) := by
  have hInv := reachable_storeInv hs
  constructor
  · by_cases hmem : jid ∈ s.payment_instances
    · obtain ⟨haw, hres, herr⟩ := (hInv.2 jid j hj).1 hmem
      constructor
      · constructor
        · intro h
          exact absurd hres h
        · intro h
          rw [haw] at h
          exact absurd h (by decide)
      · constructor
        · intro h
          exact absurd herr h
        · intro h
          rw [haw] at h
          exact absurd h (by decide)
    · obtain ⟨hterm, hciff, hfiff⟩ := (hInv.2 jid j hj).2 hmem
      exact ⟨⟨fun h => hciff.mpr h, fun h => hciff.mp h⟩,
             ⟨fun h => hfiff.mpr h, fun h => hfiff.mp h⟩⟩
  · intro hc
    constructor
    · intro op hop
      exact terminal_frame s op hInv hop jid j hj (Or.inl hc)
    · intro refresh
      obtain ⟨body, hbody, _, _, hres, _⟩ := get_status_known s jid refresh j hj
      exact ⟨body, hbody, hres⟩

def w6_req : StartJobRequest :=
  { identifier_from_purchaser := "p6w", input_data := [("text", "t6")] }

def w6_pd : PaymentData :=
  { blockchainIdentifier := some "b6w", submitResultTime := some 1,
    unlockTime := some 2, externalDisputeUnlockTime := some 3 }

def w6_op0 : Op := Op.startJob "jw6" w6_req (Except.ok w6_pd)

def w6_state : ServerState := applyOp initialState w6_op0

def w6_job : JobRecord :=
  { status := "awaiting_payment", payment_status := "pending",
    payment_id := "b6w", input_data := [("text", "t6")],
    result := none, error := none, identifier_from_purchaser := "p6w" }

theorem result_iff_completed_witness :
    ((w6_job.result ≠ none ↔ w6_job.status = "completed") ∧
     (w6_job.error ≠ none ↔ w6_job.status = "failed")) ∧
    (w6_job.status = "completed" →
       (∀ op, allowedOp w6_state op = true →
          findJob "jw6" (applyOp w6_state op).jobs = some w6_job) ∧
       (∀ refresh, ∃ body,
          (get_status w6_state "jw6" refresh).2 = StatusResult.ok body ∧
          body.result = w6_job.result)) :=
  result_iff_completed w6_state (Reachable.step w6_op0 Reachable.init (by decide))
    "jw6" w6_job (by decide)
